import Mathlib

/-!
Verification of the keyset validation routines of the Tink C++ library
(`cc/util/validation.cc`), shallowly embedded in Lean 4.

The source file defines four pure functions over protobuf messages:
`ValidateAesKeySize`, `ValidateKey`, `ValidateKeyset`, `ValidateVersion`,
all returning a `util::Status` that is either OK or an INVALID_ARGUMENT
error carrying a diagnostic message.  We embed the protobuf data model
(key records, keysets, the status/prefix/material enums) and the four
functions, and prove the properties the specification states about them.
-/

namespace Tink

/-- Proto enum `google::crypto::tink::KeyStatusType`. -/
inductive KeyStatusType
  | UNKNOWN_STATUS
  | ENABLED
  | DISABLED
  | DESTROYED
  deriving DecidableEq, Repr

/-- Proto enum `google::crypto::tink::OutputPrefixType`.  The sentinel
variant is `UNKNOWN_PREFIX` in the proto; it is spelled with a trailing
`_TYPE` here. -/
inductive OutputPrefixType
  | UNKNOWN_PREFIX_TYPE
  | TINK
  | LEGACY
  | RAW
  | CRUNCHY
  deriving DecidableEq, Repr

/-- Proto enum `google::crypto::tink::KeyData::KeyMaterialType`. -/
inductive KeyMaterialType
  | UNKNOWN_KEYMATERIAL
  | SYMMETRIC
  | ASYMMETRIC_PRIVATE
  | ASYMMETRIC_PUBLIC
  | REMOTE
  deriving DecidableEq, Repr

/-- Proto message `google::crypto::tink::KeyData`: only the `key_material_type` field is
read by the validation code. -/
structure KeyData where
  key_material_type : KeyMaterialType
  deriving DecidableEq, Repr

/-- Proto message `google::crypto::tink::Keyset::Key`: one key record.  `key_data` is an
optional submessage (`has_key_data()` is `Option.isSome`); `key_id` is a
`uint32`, modelled as `Nat` (only equality tests are performed on it). -/
structure Key where
  key_id : Nat
  status : KeyStatusType
  output_prefix_type : OutputPrefixType
  key_data : Option KeyData
  deriving DecidableEq, Repr

/-- Reading `key.key_data().key_material_type()`: reading a submessage field on a
proto returns the default instance when the field is unset, whose
`key_material_type` is the zero variant `UNKNOWN_KEYMATERIAL`. -/
def Key.keyDataMaterial (key : Key) : KeyMaterialType :=
  match key.key_data with
  | some kd => kd.key_material_type
  | none => KeyMaterialType.UNKNOWN_KEYMATERIAL

/-- Proto message `google::crypto::tink::Keyset`: the repeated field `key` and the
`uint32` field `primary_key_id`. -/
structure Keyset where
  primary_key_id : Nat
  key : List Key
  deriving DecidableEq, Repr

/-- Error codes of `util::error`: the validation code only ever uses
`INVALID_ARGUMENT`. -/
inductive ErrorCode
  | INVALID_ARGUMENT
  deriving DecidableEq, Repr

/-- Result type `util::Status`: either `util::Status::OK` or an error built by
`ToStatusF(code, format, args...)`, carrying the formatted message. -/
inductive Status
  | OK
  | Error (code : ErrorCode) (message : String)
  deriving DecidableEq, Repr

/-- Accessor `status.ok()`. -/
def Status.ok : Status → Bool
  | Status.OK => true
  | Status.Error _ _ => false

/-- Function `ValidateAesKeySize(uint32_t key_size)` from `cc/util/validation.cc`. -/
def ValidateAesKeySize (key_size : Nat) : Status :=
  if key_size ≠ 16 ∧ key_size ≠ 32 then
    Status.Error ErrorCode.INVALID_ARGUMENT
      ("AES key has " ++ toString key_size ++
        " bytes; supported sizes: 16 or 32 bytes.")
  else
    Status.OK

/-- Function `ValidateKey(const Keyset::Key& key)` from `cc/util/validation.cc`. -/
def ValidateKey (key : Key) : Status :=
  if ¬ key.key_data.isSome then
    Status.Error ErrorCode.INVALID_ARGUMENT
      ("key " ++ toString key.key_id ++ ", has no key data")
  else if key.output_prefix_type = OutputPrefixType.UNKNOWN_PREFIX_TYPE then
    Status.Error ErrorCode.INVALID_ARGUMENT
      ("key " ++ toString key.key_id ++ " has unknown prefix")
  else if key.status = KeyStatusType.UNKNOWN_STATUS then
    Status.Error ErrorCode.INVALID_ARGUMENT
      ("key " ++ toString key.key_id ++ " has unknown status")
  else
    Status.OK

/-- The `for` loop of `ValidateKeyset`, as structural recursion over the
remaining records.  The accumulators are the three locals of the source:
`has_primary_key`, `contains_only_public_key_material`, `enabled_keys`.
`Except.error s` models an early `return s`; `Except.ok` carries the
accumulator values at the end of the loop. -/
def ValidateKeysetLoop (primary_key_id : Nat) :
    List Key → Bool → Bool → Nat → Except Status (Bool × Bool × Nat)
  | [], has_primary_key, contains_only_public_key_material, enabled_keys =>
      Except.ok (has_primary_key, contains_only_public_key_material, enabled_keys)
  | key :: rest, has_primary_key, contains_only_public_key_material, enabled_keys =>
      if key.status ≠ KeyStatusType.ENABLED then
        ValidateKeysetLoop primary_key_id rest has_primary_key
          contains_only_public_key_material enabled_keys
      else
        let enabled_keys := enabled_keys + 1
        let validation_result := ValidateKey key
        if ¬ validation_result.ok then
          Except.error validation_result
        else if key.status = KeyStatusType.ENABLED ∧ key.key_id = primary_key_id then
          if has_primary_key then
            Except.error (Status.Error ErrorCode.INVALID_ARGUMENT
              "keyset contains multiple primary keys")
          else
            let has_primary_key := true
            let contains_only_public_key_material :=
              if key.keyDataMaterial ≠ KeyMaterialType.ASYMMETRIC_PUBLIC then false
              else contains_only_public_key_material
            ValidateKeysetLoop primary_key_id rest has_primary_key
              contains_only_public_key_material enabled_keys
        else
          let contains_only_public_key_material :=
            if key.keyDataMaterial ≠ KeyMaterialType.ASYMMETRIC_PUBLIC then false
            else contains_only_public_key_material
          ValidateKeysetLoop primary_key_id rest has_primary_key
            contains_only_public_key_material enabled_keys

/-- Function `ValidateKeyset(const Keyset& keyset)` from `cc/util/validation.cc`. -/
def ValidateKeyset (keyset : Keyset) : Status :=
  if keyset.key.length < 1 then
    Status.Error ErrorCode.INVALID_ARGUMENT
      "A valid keyset must contain at least one key."
  else
    match ValidateKeysetLoop keyset.primary_key_id keyset.key false true 0 with
    | Except.error s => s
    | Except.ok (has_primary_key, contains_only_public_key_material, enabled_keys) =>
        if enabled_keys = 0 then
          Status.Error ErrorCode.INVALID_ARGUMENT
            "keyset must contain at least one ENABLED key"
        else if ¬ has_primary_key ∧ ¬ contains_only_public_key_material then
          Status.Error ErrorCode.INVALID_ARGUMENT
            "keyset doesn't contain a valid primary key"
        else
          Status.OK

/-- Function `ValidateVersion(uint32_t candidate, uint32_t max_expected)` from
`cc/util/validation.cc`. -/
def ValidateVersion (candidate max_expected : Nat) : Status :=
  if candidate > max_expected then
    Status.Error ErrorCode.INVALID_ARGUMENT
      ("Key has version " ++ toString candidate ++
        "; only keys with version in range [0.." ++ toString max_expected ++
        "] are supported.")
  else
    Status.OK

/-! ### Derived list-level quantities used to state properties -/

/-- Whether a record's status is `ENABLED`. -/
def isEnabledKey (k : Key) : Bool :=
  decide (k.status = KeyStatusType.ENABLED)

/-- Number of `ENABLED` records in a record list (the final value of the
loop's `enabled_keys` counter on an error-free pass). -/
def countEnabled (l : List Key) : Nat :=
  (l.filter isEnabledKey).length

/-- Number of `ENABLED` records whose `key_id` equals `id`. -/
def countEnabledWithId (id : Nat) (l : List Key) : Nat :=
  (l.filter (fun k => isEnabledKey k && decide (k.key_id = id))).length

/-- Whether every `ENABLED` record's key material is `ASYMMETRIC_PUBLIC`
(the final value of `contains_only_public_key_material` on an error-free
pass that started from `true`). -/
def allEnabledPublic (l : List Key) : Bool :=
  l.all (fun k =>
    !isEnabledKey k || decide (k.keyDataMaterial = KeyMaterialType.ASYMMETRIC_PUBLIC))

/-- The diagnostic a duplicated primary key produces. -/
def multiplePrimaryStatus : Status :=
  Status.Error ErrorCode.INVALID_ARGUMENT "keyset contains multiple primary keys"

/-! ### Step lemmas for the `ValidateKeyset` loop -/

/-- A record whose status is not `ENABLED` is skipped by the loop. -/
lemma loop_cons_not_enabled {pid : Nat} {k : Key} {rest : List Key}
    {hp cp : Bool} {ek : Nat} (hk : k.status ≠ KeyStatusType.ENABLED) :
    ValidateKeysetLoop pid (k :: rest) hp cp ek =
      ValidateKeysetLoop pid rest hp cp ek := by
  simp [ValidateKeysetLoop, hk]

/-- An `ENABLED` record failing `ValidateKey` makes the loop return that
failure. -/
lemma loop_cons_enabled_fail {pid : Nat} {k : Key} {rest : List Key}
    {hp cp : Bool} {ek : Nat} (hk : k.status = KeyStatusType.ENABLED)
    (hf : (ValidateKey k).ok = false) :
    ValidateKeysetLoop pid (k :: rest) hp cp ek =
      Except.error (ValidateKey k) := by
  simp [ValidateKeysetLoop, hk, hf]

/-- A second `ENABLED` record matching `primary_key_id` makes the loop
return the multiple-primary-keys error. -/
lemma loop_cons_enabled_primary_dup {pid : Nat} {k : Key} {rest : List Key}
    {cp : Bool} {ek : Nat} (hk : k.status = KeyStatusType.ENABLED)
    (hok : (ValidateKey k).ok = true) (hid : k.key_id = pid) :
    ValidateKeysetLoop pid (k :: rest) true cp ek =
      Except.error multiplePrimaryStatus := by
  simp [ValidateKeysetLoop, hk, hok, hid, multiplePrimaryStatus]

/-- The first `ENABLED` record matching `primary_key_id` sets
`has_primary_key` and updates the public-material accumulator. -/
lemma loop_cons_enabled_primary_new {pid : Nat} {k : Key} {rest : List Key}
    {cp : Bool} {ek : Nat} (hk : k.status = KeyStatusType.ENABLED)
    (hok : (ValidateKey k).ok = true) (hid : k.key_id = pid) :
    ValidateKeysetLoop pid (k :: rest) false cp ek =
      ValidateKeysetLoop pid rest true
        (cp && decide (k.keyDataMaterial = KeyMaterialType.ASYMMETRIC_PUBLIC))
        (ek + 1) := by
  by_cases hm : k.keyDataMaterial = KeyMaterialType.ASYMMETRIC_PUBLIC
  · simp [ValidateKeysetLoop, hk, hok, hid, hm]
  · simp [ValidateKeysetLoop, hk, hok, hid, hm]

/-- An `ENABLED` record not matching `primary_key_id` just updates the
counters. -/
lemma loop_cons_enabled_nonprimary {pid : Nat} {k : Key} {rest : List Key}
    {hp cp : Bool} {ek : Nat} (hk : k.status = KeyStatusType.ENABLED)
    (hok : (ValidateKey k).ok = true) (hid : k.key_id ≠ pid) :
    ValidateKeysetLoop pid (k :: rest) hp cp ek =
      ValidateKeysetLoop pid rest hp
        (cp && decide (k.keyDataMaterial = KeyMaterialType.ASYMMETRIC_PUBLIC))
        (ek + 1) := by
  by_cases hm : k.keyDataMaterial = KeyMaterialType.ASYMMETRIC_PUBLIC
  · simp [ValidateKeysetLoop, hk, hok, hid, hm]
  · simp [ValidateKeysetLoop, hk, hok, hid, hm]

/-! ### Unfolding lemmas for the derived quantities -/

lemma countEnabled_cons (k : Key) (l : List Key) :
    countEnabled (k :: l) =
      (if isEnabledKey k then 1 else 0) + countEnabled l := by
  by_cases hk : isEnabledKey k <;> simp [countEnabled, List.filter_cons, hk, Nat.add_comm]

lemma countEnabledWithId_cons (id : Nat) (k : Key) (l : List Key) :
    countEnabledWithId id (k :: l) =
      (if isEnabledKey k && decide (k.key_id = id) then 1 else 0) +
        countEnabledWithId id l := by
  by_cases hk : (isEnabledKey k && decide (k.key_id = id) : Bool) <;>
    simp [countEnabledWithId, List.filter_cons, hk, Nat.add_comm]

lemma allEnabledPublic_cons (k : Key) (l : List Key) :
    allEnabledPublic (k :: l) =
      ((!isEnabledKey k ||
          decide (k.keyDataMaterial = KeyMaterialType.ASYMMETRIC_PUBLIC)) &&
        allEnabledPublic l) := by
  simp [allEnabledPublic, List.all_cons]

/-! ### Characterisation of the loop -/

/-- On a list whose `ENABLED` records all pass `ValidateKey` and which
contains at most one `ENABLED` record matching `primary_key_id` (counting
a pre-existing `has_primary_key`), the loop terminates normally and its
accumulators are characterised by the derived list quantities. -/
lemma loop_ok_spec (pid : Nat) (l : List Key) (hp cp : Bool) (ek : Nat)
    (hv : ∀ k ∈ l, k.status = KeyStatusType.ENABLED → ValidateKey k = Status.OK)
    (hcount : countEnabledWithId pid l + (if hp then 1 else 0) ≤ 1) :
    ValidateKeysetLoop pid l hp cp ek =
      Except.ok (hp || decide (0 < countEnabledWithId pid l),
        cp && allEnabledPublic l, ek + countEnabled l) := by
  induction l generalizing hp cp ek with
  | nil =>
      simp [ValidateKeysetLoop, countEnabledWithId, countEnabled, allEnabledPublic]
  | cons k rest ih =>
      have hv' : ∀ k' ∈ rest, k'.status = KeyStatusType.ENABLED →
          ValidateKey k' = Status.OK := fun k' hk' => hv k' (List.mem_cons_of_mem _ hk')
      by_cases hk : k.status = KeyStatusType.ENABLED
      · have hok : (ValidateKey k).ok = true := by
          rw [hv k (List.mem_cons_self _ _) hk]; rfl
        have hke : isEnabledKey k = true := by simp [isEnabledKey, hk]
        by_cases hid : k.key_id = pid
        · -- the record matches the primary id; `hp` must still be false
          have hone : countEnabledWithId pid (k :: rest) =
              1 + countEnabledWithId pid rest := by
            simp [countEnabledWithId_cons, hke, hid]
          have hp_false : hp = false := by
            rcases hp with _ | _
            · rfl
            · exfalso
              have h1 : (if (true : Bool) = true then (1 : Nat) else 0) = 1 := rfl
              rw [hone, h1] at hcount
              omega
          subst hp_false
          have hrest0 : countEnabledWithId pid rest = 0 := by
            rw [hone] at hcount; omega
          rw [loop_cons_enabled_primary_new hk hok hid,
            ih _ _ _ hv' (by rw [hrest0]; simp)]
          rw [hone]
          simp [countEnabled_cons, hke, allEnabledPublic_cons, hrest0,
            Bool.and_assoc]
          omega
        · rw [loop_cons_enabled_nonprimary hk hok hid,
            ih _ _ _ hv'
              (by rw [countEnabledWithId_cons] at hcount; simpa [hke, hid] using hcount)]
          rw [countEnabledWithId_cons]
          simp [hke, hid, countEnabled_cons, allEnabledPublic_cons, Bool.and_assoc]
          omega
      · rw [loop_cons_not_enabled hk,
          ih _ _ _ hv'
            (by rw [countEnabledWithId_cons] at hcount
                simpa [isEnabledKey, hk] using hcount)]
        have hke : isEnabledKey k = false := by simp [isEnabledKey, hk]
        simp [countEnabledWithId_cons, hke, countEnabled_cons, allEnabledPublic_cons]

/-- On a list whose `ENABLED` records all pass `ValidateKey` but which
contains (counting a pre-existing `has_primary_key`) at least two
`ENABLED` records matching `primary_key_id`, the loop returns the
multiple-primary-keys error. -/
lemma loop_dup_spec (pid : Nat) (l : List Key) (hp cp : Bool) (ek : Nat)
    (hv : ∀ k ∈ l, k.status = KeyStatusType.ENABLED → ValidateKey k = Status.OK)
    (hcount : 2 ≤ countEnabledWithId pid l + (if hp then 1 else 0)) :
    ValidateKeysetLoop pid l hp cp ek = Except.error multiplePrimaryStatus := by
  induction l generalizing hp cp ek with
  | nil =>
      exfalso
      have : countEnabledWithId pid ([] : List Key) = 0 := by
        simp [countEnabledWithId]
      rcases hp with _ | _ <;> simp [this] at hcount
  | cons k rest ih =>
      have hv' : ∀ k' ∈ rest, k'.status = KeyStatusType.ENABLED →
          ValidateKey k' = Status.OK := fun k' hk' => hv k' (List.mem_cons_of_mem _ hk')
      by_cases hk : k.status = KeyStatusType.ENABLED
      · have hok : (ValidateKey k).ok = true := by
          rw [hv k (List.mem_cons_self _ _) hk]; rfl
        have hke : isEnabledKey k = true := by simp [isEnabledKey, hk]
        by_cases hid : k.key_id = pid
        · have hone : countEnabledWithId pid (k :: rest) =
              1 + countEnabledWithId pid rest := by
            simp [countEnabledWithId_cons, hke, hid]
          rcases hp with _ | _
          · rw [loop_cons_enabled_primary_new hk hok hid]
            have h0 : (if (false : Bool) = true then (1 : Nat) else 0) = 0 := rfl
            have h1 : (if (true : Bool) = true then (1 : Nat) else 0) = 1 := rfl
            rw [hone, h0] at hcount
            exact ih _ _ _ hv' (by rw [h1]; omega)
          · exact loop_cons_enabled_primary_dup hk hok hid
        · rw [loop_cons_enabled_nonprimary hk hok hid]
          exact ih _ _ _ hv'
            (by rw [countEnabledWithId_cons] at hcount; simpa [hke, hid] using hcount)
      · rw [loop_cons_not_enabled hk]
        exact ih _ _ _ hv'
          (by rw [countEnabledWithId_cons] at hcount
              simpa [isEnabledKey, hk] using hcount)

/-- On a list that splits as `l1 ++ k :: l2` where `k` is the first
`ENABLED` record failing `ValidateKey` (all `ENABLED` records of `l1`
pass) and `l1` triggers no multiple-primary error, the loop propagates
the failure of `ValidateKey k`. -/
lemma loop_first_fail_spec (pid : Nat) (l1 : List Key) (k : Key) (l2 : List Key)
    (hp cp : Bool) (ek : Nat)
    (hk : k.status = KeyStatusType.ENABLED)
    (hf : (ValidateKey k).ok = false)
    (hv1 : ∀ k' ∈ l1, k'.status = KeyStatusType.ENABLED → ValidateKey k' = Status.OK)
    (hcount : countEnabledWithId pid l1 + (if hp then 1 else 0) ≤ 1) :
    ValidateKeysetLoop pid (l1 ++ k :: l2) hp cp ek =
      Except.error (ValidateKey k) := by
  induction l1 generalizing hp cp ek with
  | nil => simpa using loop_cons_enabled_fail hk hf
  | cons k' l1' ih =>
      have hv' : ∀ x ∈ l1', x.status = KeyStatusType.ENABLED →
          ValidateKey x = Status.OK := fun x hx => hv1 x (List.mem_cons_of_mem _ hx)
      rw [List.cons_append]
      by_cases hk' : k'.status = KeyStatusType.ENABLED
      · have hok : (ValidateKey k').ok = true := by
          rw [hv1 k' (List.mem_cons_self _ _) hk']; rfl
        have hke : isEnabledKey k' = true := by simp [isEnabledKey, hk']
        by_cases hid : k'.key_id = pid
        · have hone : countEnabledWithId pid (k' :: l1') =
              1 + countEnabledWithId pid l1' := by
            simp [countEnabledWithId_cons, hke, hid]
          have hp_false : hp = false := by
            rcases hp with _ | _
            · rfl
            · exfalso
              have h1 : (if (true : Bool) = true then (1 : Nat) else 0) = 1 := rfl
              rw [hone, h1] at hcount
              omega
          subst hp_false
          have h0 : (if (false : Bool) = true then (1 : Nat) else 0) = 0 := rfl
          have h1 : (if (true : Bool) = true then (1 : Nat) else 0) = 1 := rfl
          rw [hone, h0] at hcount
          rw [loop_cons_enabled_primary_new hk' hok hid]
          exact ih _ _ _ hv' (by rw [h1]; omega)
        · rw [loop_cons_enabled_nonprimary hk' hok hid]
          exact ih _ _ _ hv'
            (by rw [countEnabledWithId_cons] at hcount; simpa [hke, hid] using hcount)
      · rw [loop_cons_not_enabled hk']
        exact ih _ _ _ hv'
          (by rw [countEnabledWithId_cons] at hcount
              simpa [isEnabledKey, hk'] using hcount)

/-- Records whose status is not `ENABLED` are invisible to the loop: the
loop computes the same result on the sublist of `ENABLED` records. -/
lemma loop_filter_enabled (pid : Nat) (l : List Key) (hp cp : Bool) (ek : Nat) :
    ValidateKeysetLoop pid l hp cp ek =
      ValidateKeysetLoop pid (l.filter isEnabledKey) hp cp ek := by
  induction l generalizing hp cp ek with
  | nil => rfl
  | cons k rest ih =>
      by_cases hk : k.status = KeyStatusType.ENABLED
      · have hke : isEnabledKey k = true := by simp [isEnabledKey, hk]
        have hfe : (k :: rest).filter isEnabledKey = k :: rest.filter isEnabledKey := by
          simp [List.filter_cons, hke]
        rw [hfe]
        rcases hfo : (ValidateKey k).ok with _ | _
        · rw [loop_cons_enabled_fail hk hfo, loop_cons_enabled_fail hk hfo]
        · by_cases hid : k.key_id = pid
          · rcases hp with _ | _
            · rw [loop_cons_enabled_primary_new hk hfo hid,
                loop_cons_enabled_primary_new hk hfo hid, ih]
            · rw [loop_cons_enabled_primary_dup hk hfo hid,
                loop_cons_enabled_primary_dup hk hfo hid]
          · rw [loop_cons_enabled_nonprimary hk hfo hid,
              loop_cons_enabled_nonprimary hk hfo hid, ih]
      · have hke : isEnabledKey k = false := by simp [isEnabledKey, hk]
        have hfe : (k :: rest).filter isEnabledKey = rest.filter isEnabledKey := by
          simp [List.filter_cons, hke]
        rw [hfe, loop_cons_not_enabled hk, ih]

/-! ### Small arithmetic facts about the derived quantities -/

lemma countEnabledWithId_le_countEnabled (id : Nat) (l : List Key) :
    countEnabledWithId id l ≤ countEnabled l := by
  induction l with
  | nil => simp [countEnabledWithId, countEnabled]
  | cons k rest ih =>
      rw [countEnabledWithId_cons, countEnabled_cons]
      by_cases h1 : isEnabledKey k <;> by_cases h2 : decide (k.key_id = id) <;>
        simp [h1, h2] <;> omega

lemma countEnabled_pos_of_mem {l : List Key} {k : Key} (hk : k ∈ l)
    (he : k.status = KeyStatusType.ENABLED) : 0 < countEnabled l := by
  have : k ∈ l.filter isEnabledKey :=
    List.mem_filter.mpr ⟨hk, by simp [isEnabledKey, he]⟩
  exact List.length_pos.mpr (List.ne_nil_of_mem this)

lemma countEnabledWithId_eq_zero_of_noprim {id : Nat} {l : List Key}
    (h : ∀ k ∈ l, k.status = KeyStatusType.ENABLED → k.key_id ≠ id) :
    countEnabledWithId id l = 0 := by
  induction l with
  | nil => simp [countEnabledWithId]
  | cons k rest ih =>
      rw [countEnabledWithId_cons]
      have hrest := ih fun x hx => h x (List.mem_cons_of_mem _ hx)
      by_cases h1 : isEnabledKey k
      · have : k.key_id ≠ id :=
          h k (List.mem_cons_self _ _) (by simpa [isEnabledKey] using h1)
        simp [h1, this, hrest]
      · simp [h1, hrest]

lemma allEnabledPublic_eq_true_iff (l : List Key) :
    allEnabledPublic l = true ↔
      ∀ k ∈ l, k.status = KeyStatusType.ENABLED →
        k.keyDataMaterial = KeyMaterialType.ASYMMETRIC_PUBLIC := by
  simp only [allEnabledPublic, List.all_eq_true, isEnabledKey, Bool.or_eq_true,
    Bool.not_eq_true', decide_eq_false_iff_not, decide_eq_true_eq]
  exact forall₂_congr fun k _ => by
    constructor
    · rintro (h | h) he
      · exact absurd he h
      · exact h
    · intro h
      by_cases he : k.status = KeyStatusType.ENABLED
      · exact Or.inr (h he)
      · exact Or.inl he

lemma ne_nil_of_countEnabled_pos {l : List Key} (h : 0 < countEnabled l) :
    l ≠ [] := by
  intro hnil
  subst hnil
  simp [countEnabled] at h

lemma countEnabled_eq_zero_iff (l : List Key) :
    countEnabled l = 0 ↔ ∀ k ∈ l, k.status ≠ KeyStatusType.ENABLED := by
  simp [countEnabled, List.length_eq_zero, List.filter_eq_nil_iff, isEnabledKey]

/-- Unfolds `ValidateKeyset` on a non-empty keyset whose loop exits early. -/
lemma validateKeyset_of_loop_error (ks : Keyset) (h : ks.key ≠ []) (s : Status)
    (hl : ValidateKeysetLoop ks.primary_key_id ks.key false true 0 =
      Except.error s) :
    ValidateKeyset ks = s := by
  have hlen : ¬ ks.key.length < 1 := by
    simpa [Nat.lt_one_iff, List.length_eq_zero] using h
  rw [ValidateKeyset, if_neg hlen, hl]

/-- Unfolds `ValidateKeyset` on a non-empty keyset whose loop runs to the
end, to the two aggregate checks on the final accumulator values. -/
lemma validateKeyset_of_loop_ok (ks : Keyset) (h : ks.key ≠ [])
    (hp cp : Bool) (ek : Nat)
    (hl : ValidateKeysetLoop ks.primary_key_id ks.key false true 0 =
      Except.ok (hp, cp, ek)) :
    ValidateKeyset ks =
      (if ek = 0 then
        Status.Error ErrorCode.INVALID_ARGUMENT
          "keyset must contain at least one ENABLED key"
      else if ¬ hp ∧ ¬ cp then
        Status.Error ErrorCode.INVALID_ARGUMENT
          "keyset doesn't contain a valid primary key"
      else
        Status.OK) := by
  have hlen : ¬ ks.key.length < 1 := by
    simpa [Nat.lt_one_iff, List.length_eq_zero] using h
  rw [ValidateKeyset, if_neg hlen, hl]

/-- Specialisation of `loop_ok_spec` to the loop's initial accumulators. -/
lemma loop_ok_spec0 (pid : Nat) (l : List Key)
    (hv : ∀ k ∈ l, k.status = KeyStatusType.ENABLED → ValidateKey k = Status.OK)
    (hcount : countEnabledWithId pid l ≤ 1) :
    ValidateKeysetLoop pid l false true 0 =
      Except.ok (decide (0 < countEnabledWithId pid l), allEnabledPublic l,
        countEnabled l) := by
  have h0 : (if (false : Bool) = true then (1 : Nat) else 0) = 0 := rfl
  have := loop_ok_spec pid l false true 0 hv (by rw [h0]; omega)
  simpa using this

/-- Specialisation of `loop_dup_spec` to the loop's initial accumulators. -/
lemma loop_dup_spec0 (pid : Nat) (l : List Key)
    (hv : ∀ k ∈ l, k.status = KeyStatusType.ENABLED → ValidateKey k = Status.OK)
    (hcount : 2 ≤ countEnabledWithId pid l) :
    ValidateKeysetLoop pid l false true 0 = Except.error multiplePrimaryStatus := by
  have h0 : (if (false : Bool) = true then (1 : Nat) else 0) = 0 := rfl
  exact loop_dup_spec pid l false true 0 hv (by rw [h0]; omega)

/-- Two non-empty record lists with the same `ENABLED` records validate
identically (under the same `primary_key_id`). -/
lemma validateKeyset_congr_filter (pid : Nat) (l l' : List Key)
    (hl : l ≠ []) (hl' : l' ≠ [])
    (hf : l.filter isEnabledKey = l'.filter isEnabledKey) :
    ValidateKeyset ⟨pid, l⟩ = ValidateKeyset ⟨pid, l'⟩ := by
  have h1 : ¬ (l.length < 1) := by
    simpa [Nat.lt_one_iff, List.length_eq_zero] using hl
  have h2 : ¬ (l'.length < 1) := by
    simpa [Nat.lt_one_iff, List.length_eq_zero] using hl'
  have hloop : ValidateKeysetLoop pid l false true 0 =
      ValidateKeysetLoop pid l' false true 0 := by
    rw [loop_filter_enabled, hf, ← loop_filter_enabled]
  rw [ValidateKeyset, ValidateKeyset]
  simp only [if_neg h1, if_neg h2]
  rw [hloop]

/-! ### Concrete records and keysets used as witness inputs -/

/-- A well-formed `ENABLED` symmetric record with `key_id = 1`. -/
def keySym1 : Key :=
  { key_id := 1, status := KeyStatusType.ENABLED,
    output_prefix_type := OutputPrefixType.TINK,
    key_data := some { key_material_type := KeyMaterialType.SYMMETRIC } }

/-- A well-formed `ENABLED` symmetric record with `key_id = 2`. -/
def keySym2 : Key :=
  { key_id := 2, status := KeyStatusType.ENABLED,
    output_prefix_type := OutputPrefixType.TINK,
    key_data := some { key_material_type := KeyMaterialType.SYMMETRIC } }

/-- A well-formed `ENABLED` public-key record with `key_id = 2`. -/
def keyPub2 : Key :=
  { key_id := 2, status := KeyStatusType.ENABLED,
    output_prefix_type := OutputPrefixType.TINK,
    key_data := some { key_material_type := KeyMaterialType.ASYMMETRIC_PUBLIC } }

/-- A `DISABLED` record with `key_id = 1`. -/
def keyDisabled1 : Key :=
  { key_id := 1, status := KeyStatusType.DISABLED,
    output_prefix_type := OutputPrefixType.TINK,
    key_data := some { key_material_type := KeyMaterialType.SYMMETRIC } }

/-- A record with the sentinel `UNKNOWN_STATUS` and missing `key_data`. -/
def keyUnknownNoData : Key :=
  { key_id := 9, status := KeyStatusType.UNKNOWN_STATUS,
    output_prefix_type := OutputPrefixType.UNKNOWN_PREFIX_TYPE,
    key_data := none }

/-- An `ENABLED` record with `key_id = 3` and missing `key_data`. -/
def keyEnabledNoData : Key :=
  { key_id := 3, status := KeyStatusType.ENABLED,
    output_prefix_type := OutputPrefixType.TINK, key_data := none }

/-! ### Claims -/

/-- C4: for every key record, `ValidateKey` succeeds if and only if
`key_data` is present, `output_prefix_type` is not the unknown sentinel,
and `status` is not `UNKNOWN_STATUS` (`DISABLED` and `DESTROYED` are
accepted); otherwise it fails with `InvalidArgument`, and the three
checks are evaluated in that order, short-circuiting so the diagnostic
names the first violated check. -/
theorem C4_validate_key_checks (key : Key) :
    (ValidateKey key = Status.OK ↔
      key.key_data.isSome = true ∧
      key.output_prefix_type ≠ OutputPrefixType.UNKNOWN_PREFIX_TYPE ∧
      key.status ≠ KeyStatusType.UNKNOWN_STATUS) ∧
    (key.key_data.isSome = false →
      ValidateKey key = Status.Error ErrorCode.INVALID_ARGUMENT
        ("key " ++ toString key.key_id ++ ", has no key data")) ∧
    (key.key_data.isSome = true →
      key.output_prefix_type = OutputPrefixType.UNKNOWN_PREFIX_TYPE →
      ValidateKey key = Status.Error ErrorCode.INVALID_ARGUMENT
        ("key " ++ toString key.key_id ++ " has unknown prefix")) ∧
    (key.key_data.isSome = true →
      key.output_prefix_type ≠ OutputPrefixType.UNKNOWN_PREFIX_TYPE →
      key.status = KeyStatusType.UNKNOWN_STATUS →
      ValidateKey key = Status.Error ErrorCode.INVALID_ARGUMENT
        ("key " ++ toString key.key_id ++ " has unknown status")) := by
  refine ⟨⟨fun h => ?_, fun ⟨h1, h2, h3⟩ => ?_⟩, fun h1 => ?_, fun h1 h2 => ?_,
    fun h1 h2 h3 => ?_⟩
  · by_cases h1 : key.key_data.isSome
    · by_cases h2 : key.output_prefix_type = OutputPrefixType.UNKNOWN_PREFIX_TYPE
      · simp [ValidateKey, h1, h2] at h
      · by_cases h3 : key.status = KeyStatusType.UNKNOWN_STATUS
        · simp [ValidateKey, h1, h2, h3] at h
        · exact ⟨h1, h2, h3⟩
    · simp [ValidateKey, h1] at h
  · simp [ValidateKey, h1, h2, h3]
  · simp [ValidateKey, h1]
  · simp [ValidateKey, h1, h2]
  · simp [ValidateKey, h1, h2, h3]

/-- Witness for C4 at a concrete record missing its key data. -/
theorem C4_validate_key_checks_witness :
    ValidateKey keyEnabledNoData =
      Status.Error ErrorCode.INVALID_ARGUMENT "key 3, has no key data" :=
  (C4_validate_key_checks keyEnabledNoData).2.1 (by decide)

/-- C5: for every non-empty keyset in which no record has status
`ENABLED`, `ValidateKeyset` fails with `InvalidArgument` carrying the
"must contain at least one ENABLED key" diagnostic. -/
theorem C5_no_enabled_key (ks : Keyset) (hne : ks.key ≠ [])
    (hno : ∀ k ∈ ks.key, k.status ≠ KeyStatusType.ENABLED) :
    ValidateKeyset ks = Status.Error ErrorCode.INVALID_ARGUMENT
      "keyset must contain at least one ENABLED key" := by
  have hv : ∀ k ∈ ks.key, k.status = KeyStatusType.ENABLED →
      ValidateKey k = Status.OK := fun k hk he => absurd he (hno k hk)
  have hce : countEnabled ks.key = 0 := (countEnabled_eq_zero_iff _).mpr hno
  have hcz : countEnabledWithId ks.primary_key_id ks.key = 0 := by
    have := countEnabledWithId_le_countEnabled ks.primary_key_id ks.key
    omega
  rw [validateKeyset_of_loop_ok ks hne _ _ _
    (loop_ok_spec0 ks.primary_key_id ks.key hv (by omega))]
  simp [hce]

/-- Witness for C5 at a keyset with one `DISABLED` record. -/
theorem C5_no_enabled_key_witness :
    ValidateKeyset { primary_key_id := 1, key := [keyDisabled1] } =
      Status.Error ErrorCode.INVALID_ARGUMENT
        "keyset must contain at least one ENABLED key" :=
  C5_no_enabled_key _ (by decide) (by decide)

/-- C6: for every keyset whose record sequence is empty, `ValidateKeyset`
fails with `InvalidArgument` carrying the "must contain at least one key"
diagnostic, before any other check runs. -/
theorem C6_empty_keyset (ks : Keyset) (h : ks.key = []) :
    ValidateKeyset ks = Status.Error ErrorCode.INVALID_ARGUMENT
      "A valid keyset must contain at least one key." := by
  simp [ValidateKeyset, h]

/-- Witness for C6 at the empty keyset with `primary_key_id = 7`. -/
theorem C6_empty_keyset_witness :
    ValidateKeyset { primary_key_id := 7, key := [] } =
      Status.Error ErrorCode.INVALID_ARGUMENT
        "A valid keyset must contain at least one key." :=
  C6_empty_keyset _ rfl

/-- C7: for every unsigned integer `key_size`, `ValidateAesKeySize`
succeeds if and only if `key_size` equals 16 or 32; for every other value
(including 0 and oversized values) it fails with `InvalidArgument`. -/
theorem C7_aes_key_size (key_size : Nat) :
    (ValidateAesKeySize key_size = Status.OK ↔
      key_size = 16 ∨ key_size = 32) ∧
    (ValidateAesKeySize key_size = Status.OK ∨
      ValidateAesKeySize key_size = Status.Error ErrorCode.INVALID_ARGUMENT
        ("AES key has " ++ toString key_size ++
          " bytes; supported sizes: 16 or 32 bytes.")) := by
  by_cases h16 : key_size = 16
  · subst h16; refine ⟨by simp [ValidateAesKeySize], Or.inl (by simp [ValidateAesKeySize])⟩
  · by_cases h32 : key_size = 32
    · subst h32; refine ⟨by simp [ValidateAesKeySize], Or.inl (by simp [ValidateAesKeySize])⟩
    · refine ⟨?_, Or.inr (by simp [ValidateAesKeySize, h16, h32])⟩
      simp [ValidateAesKeySize, h16, h32]

/-- Witness for C7 at the unsupported size 17. -/
theorem C7_aes_key_size_witness :
    (ValidateAesKeySize 17 = Status.OK ↔ (17 : Nat) = 16 ∨ (17 : Nat) = 32) ∧
    (ValidateAesKeySize 17 = Status.OK ∨
      ValidateAesKeySize 17 = Status.Error ErrorCode.INVALID_ARGUMENT
        ("AES key has " ++ toString (17 : Nat) ++
          " bytes; supported sizes: 16 or 32 bytes.")) :=
  C7_aes_key_size 17

/-- C8: for every pair of unsigned integers `candidate` and
`max_expected`, `ValidateVersion` succeeds if and only if
`candidate ≤ max_expected` (including `candidate = 0`), and fails with
`InvalidArgument` when `candidate > max_expected`. -/
theorem C8_validate_version (candidate max_expected : Nat) :
    (ValidateVersion candidate max_expected = Status.OK ↔
      candidate ≤ max_expected) ∧
    (ValidateVersion candidate max_expected = Status.OK ∨
      ValidateVersion candidate max_expected =
        Status.Error ErrorCode.INVALID_ARGUMENT
          ("Key has version " ++ toString candidate ++
            "; only keys with version in range [0.." ++ toString max_expected ++
            "] are supported.")) := by
  by_cases h : candidate > max_expected
  · refine ⟨?_, Or.inr (by simp [ValidateVersion, h])⟩
    simp only [ValidateVersion, if_pos h]
    constructor
    · intro hc
      exact absurd hc (by simp)
    · intro hc
      omega
  · refine ⟨?_, Or.inl (by simp [ValidateVersion, h])⟩
    simp only [ValidateVersion, if_neg h]
    constructor
    · intro _
      omega
    · intro _
      trivial

/-- Witness for C8 at `candidate = 3`, `max_expected = 2`. -/
theorem C8_validate_version_witness :
    (ValidateVersion 3 2 = Status.OK ↔ (3 : Nat) ≤ 2) ∧
    (ValidateVersion 3 2 = Status.OK ∨
      ValidateVersion 3 2 = Status.Error ErrorCode.INVALID_ARGUMENT
        ("Key has version " ++ toString (3 : Nat) ++
          "; only keys with version in range [0.." ++ toString (2 : Nat) ++
          "] are supported.")) :=
  C8_validate_version 3 2

/-- C1: for every keyset in which no `ENABLED` record has `key_id` equal
to `primary_key_id` (every `ENABLED` record passes the per-key checks and
at least one record is `ENABLED`), `ValidateKeyset` succeeds if every
`ENABLED` record's key material type is `ASYMMETRIC_PUBLIC`, and fails
with `InvalidArgument` ("doesn't contain a valid primary key") if some
`ENABLED` record's key material type is not `ASYMMETRIC_PUBLIC`. -/
theorem C1_no_primary_public_exception (ks : Keyset)
    (h_noprim : ∀ k ∈ ks.key, k.status = KeyStatusType.ENABLED →
      k.key_id ≠ ks.primary_key_id)
    (h_valid : ∀ k ∈ ks.key, k.status = KeyStatusType.ENABLED →
      ValidateKey k = Status.OK)
    (h_enabled : ∃ k ∈ ks.key, k.status = KeyStatusType.ENABLED) :
    (ValidateKeyset ks = Status.OK ↔
      ∀ k ∈ ks.key, k.status = KeyStatusType.ENABLED →
        k.keyDataMaterial = KeyMaterialType.ASYMMETRIC_PUBLIC) ∧
    ((∃ k ∈ ks.key, k.status = KeyStatusType.ENABLED ∧
        k.keyDataMaterial ≠ KeyMaterialType.ASYMMETRIC_PUBLIC) →
      ValidateKeyset ks = Status.Error ErrorCode.INVALID_ARGUMENT
        "keyset doesn't contain a valid primary key") := by
  obtain ⟨k0, hk0, he0⟩ := h_enabled
  have hne : ks.key ≠ [] := List.ne_nil_of_mem hk0
  have hpos : 0 < countEnabled ks.key := countEnabled_pos_of_mem hk0 he0
  have hz : countEnabledWithId ks.primary_key_id ks.key = 0 :=
    countEnabledWithId_eq_zero_of_noprim h_noprim
  have hks := validateKeyset_of_loop_ok ks hne _ _ _
    (loop_ok_spec0 ks.primary_key_id ks.key h_valid (by omega))
  rw [hz] at hks
  have h0 : countEnabled ks.key ≠ 0 := by omega
  by_cases hpub : allEnabledPublic ks.key = true
  · simp [h0, hpub] at hks
    refine ⟨⟨fun _ => (allEnabledPublic_eq_true_iff _).mp hpub, fun _ => hks⟩, ?_⟩
    rintro ⟨k, hk, he, hm⟩
    exact absurd ((allEnabledPublic_eq_true_iff _).mp hpub k hk he) hm
  · simp [h0, hpub] at hks
    refine ⟨⟨fun h => ?_, fun hall => ?_⟩, fun _ => hks⟩
    · rw [hks] at h
      exact absurd h (by simp)
    · exact absurd ((allEnabledPublic_eq_true_iff _).mpr hall) hpub

/-- Witness for C1 at a keyset with one `ENABLED` public-key record not
matching `primary_key_id`. -/
theorem C1_no_primary_public_exception_witness :
    ValidateKeyset ⟨1, [keyPub2]⟩ = Status.OK :=
  (C1_no_primary_public_exception ⟨1, [keyPub2]⟩ (by decide) (by decide)
    (by decide)).1.mpr (by decide)

/-- C2: for every keyset containing two or more `ENABLED` records whose
`key_id` equals `primary_key_id` (each passing the per-key checks),
`ValidateKeyset` fails with `InvalidArgument` ("multiple primary keys");
with exactly one such `ENABLED` record it does not fail for this
reason. -/
theorem C2_multiple_primary_keys (ks : Keyset)
    (h_valid : ∀ k ∈ ks.key, k.status = KeyStatusType.ENABLED →
      ValidateKey k = Status.OK) :
    (2 ≤ countEnabledWithId ks.primary_key_id ks.key →
      ValidateKeyset ks = Status.Error ErrorCode.INVALID_ARGUMENT
        "keyset contains multiple primary keys") ∧
    (countEnabledWithId ks.primary_key_id ks.key = 1 →
      ValidateKeyset ks ≠ Status.Error ErrorCode.INVALID_ARGUMENT
        "keyset contains multiple primary keys") := by
  have hle := countEnabledWithId_le_countEnabled ks.primary_key_id ks.key
  constructor
  · intro h2
    have hpos : 0 < countEnabled ks.key := by omega
    have hne : ks.key ≠ [] := ne_nil_of_countEnabled_pos hpos
    exact validateKeyset_of_loop_error ks hne _
      (loop_dup_spec0 ks.primary_key_id ks.key h_valid h2)
  · intro h1
    have hpos : 0 < countEnabled ks.key := by omega
    have hne : ks.key ≠ [] := ne_nil_of_countEnabled_pos hpos
    have hks := validateKeyset_of_loop_ok ks hne _ _ _
      (loop_ok_spec0 ks.primary_key_id ks.key h_valid (by omega))
    rw [h1] at hks
    have h0 : countEnabled ks.key ≠ 0 := by omega
    simp [h0] at hks
    rw [hks]
    simp

/-- Witness for C2 at a keyset with two `ENABLED` records matching
`primary_key_id = 2`. -/
theorem C2_multiple_primary_keys_witness :
    ValidateKeyset ⟨2, [keySym2, keySym2]⟩ =
      Status.Error ErrorCode.INVALID_ARGUMENT
        "keyset contains multiple primary keys" :=
  (C2_multiple_primary_keys ⟨2, [keySym2, keySym2]⟩ (by decide)).1 (by decide)

/-- C3: `ValidateKeyset` skips every record whose status is not
`ENABLED`: inserting such a record anywhere into a non-empty keyset does
not change the verdict (so it is never passed to `ValidateKey`, never
counted in `enabled_keys`, and never affects the accumulators — in
particular a record with status `UNKNOWN_STATUS` and missing `key_data`
never by itself causes a failure), while each `ENABLED` record is run
through `ValidateKey` and the first per-key failure (reached with no
earlier multiple-primary error) is propagated immediately as
`ValidateKeyset`'s result. -/
theorem C3_skip_non_enabled (pid : Nat) (l1 l2 : List Key) (k : Key) :
    (k.status ≠ KeyStatusType.ENABLED → l1 ++ l2 ≠ [] →
      ValidateKeyset ⟨pid, l1 ++ k :: l2⟩ = ValidateKeyset ⟨pid, l1 ++ l2⟩) ∧
    (k.status = KeyStatusType.ENABLED →
      ∀ c m, ValidateKey k = Status.Error c m →
        (∀ x ∈ l1, x.status = KeyStatusType.ENABLED →
          ValidateKey x = Status.OK) →
        countEnabledWithId pid l1 ≤ 1 →
        ValidateKeyset ⟨pid, l1 ++ k :: l2⟩ = Status.Error c m) := by
  constructor
  · intro hk hne
    have hke : isEnabledKey k = false := by simp [isEnabledKey, hk]
    have hmid : l1 ++ k :: l2 ≠ [] := by simp
    apply validateKeyset_congr_filter pid _ _ hmid hne
    simp [List.filter_append, List.filter_cons, hke]
  · intro hk c m hf hv1 hcount
    have hmid : l1 ++ k :: l2 ≠ [] := by simp
    have hfo : (ValidateKey k).ok = false := by rw [hf]; rfl
    have h0 : (if (false : Bool) = true then (1 : Nat) else 0) = 0 := rfl
    have hloop := loop_first_fail_spec pid l1 k l2 false true 0 hk hfo hv1
      (by rw [h0]; omega)
    have hres := validateKeyset_of_loop_error ⟨pid, l1 ++ k :: l2⟩ hmid
      (ValidateKey k) hloop
    rw [hf] at hres
    exact hres

/-- Witness for C3: appending a record with `UNKNOWN_STATUS` and no key
data to a valid singleton keyset leaves the verdict unchanged. -/
theorem C3_skip_non_enabled_witness :
    ValidateKeyset ⟨1, [keySym1, keyUnknownNoData]⟩ =
      ValidateKeyset ⟨1, [keySym1]⟩ :=
  (C3_skip_non_enabled 1 [keySym1] [] keyUnknownNoData).1 (by decide) (by decide)

/-- Keyset used to refute C9 as stated: two `ENABLED` records, both
matching `primary_key_id = 2`, both passing the per-key checks. -/
def ksTwoPrimaries : Keyset := ⟨2, [keySym2, keySym2]⟩

/-- Counterexample to C9 as stated: `ksTwoPrimaries` has at least one
`ENABLED` record matching `primary_key_id` and all its `ENABLED` records
pass `ValidateKey`, yet `ValidateKeyset` rejects it (with the
multiple-primary-keys diagnostic), so succeeding is not guaranteed by
"at least one" matching record. -/
theorem C9_counterexample :
    (∃ k ∈ ksTwoPrimaries.key, k.status = KeyStatusType.ENABLED ∧
      k.key_id = ksTwoPrimaries.primary_key_id) ∧
    (∀ k ∈ ksTwoPrimaries.key, k.status = KeyStatusType.ENABLED →
      ValidateKey k = Status.OK) ∧
    ValidateKeyset ksTwoPrimaries ≠ Status.OK ∧
    ValidateKeyset ksTwoPrimaries = Status.Error ErrorCode.INVALID_ARGUMENT
      "keyset contains multiple primary keys" := by
  refine ⟨by decide, by decide, by decide, by decide⟩

/-- C9 (amended): for every keyset with exactly one `ENABLED` record
whose `key_id` equals `primary_key_id` and whose `ENABLED` records all
pass `ValidateKey`, `ValidateKeyset` succeeds regardless of the
`key_material_type` (including the unknown sentinel) of any record; key
material type influences the verdict only through the no-primary
public-key exception. -/
theorem C9_exactly_one_primary (ks : Keyset)
    (h_valid : ∀ k ∈ ks.key, k.status = KeyStatusType.ENABLED →
      ValidateKey k = Status.OK)
    (h_one : countEnabledWithId ks.primary_key_id ks.key = 1) :
    ValidateKeyset ks = Status.OK := by
  have hle := countEnabledWithId_le_countEnabled ks.primary_key_id ks.key
  have hpos : 0 < countEnabled ks.key := by omega
  have hne : ks.key ≠ [] := ne_nil_of_countEnabled_pos hpos
  have hks := validateKeyset_of_loop_ok ks hne _ _ _
    (loop_ok_spec0 ks.primary_key_id ks.key h_valid (by omega))
  rw [h_one] at hks
  have h0 : countEnabled ks.key ≠ 0 := by omega
  simpa [h0] using hks

/-- Witness for the amended C9 at a keyset whose records all carry
`SYMMETRIC` (non-public) key material. -/
theorem C9_exactly_one_primary_witness :
    ValidateKeyset ⟨1, [keySym1, keySym2]⟩ = Status.OK :=
  C9_exactly_one_primary ⟨1, [keySym1, keySym2]⟩ (by decide) (by decide)

/-- C10: `ValidateKeyset` does not enforce uniqueness of `key_id`: a
keyset whose `ENABLED` records all pass `ValidateKey`, with at most one
`ENABLED` record matching `primary_key_id`, passing the primary-key /
public-material aggregate check, and containing two or more `ENABLED`
records sharing a `key_id` `d` different from `primary_key_id`, is
accepted; duplicate ids are rejected only when more than one `ENABLED`
record's `key_id` equals `primary_key_id`. -/
theorem C10_duplicate_nonprimary_ids (ks : Keyset) (d : Nat)
    (h_valid : ∀ k ∈ ks.key, k.status = KeyStatusType.ENABLED →
      ValidateKey k = Status.OK)
    (h_atmost : countEnabledWithId ks.primary_key_id ks.key ≤ 1)
    (h_pass : countEnabledWithId ks.primary_key_id ks.key = 1 ∨
      allEnabledPublic ks.key = true)
    (h_d : d ≠ ks.primary_key_id)
    (h_dup : 2 ≤ countEnabledWithId d ks.key) :
    ValidateKeyset ks = Status.OK := by
  have hle := countEnabledWithId_le_countEnabled d ks.key
  have hpos : 0 < countEnabled ks.key := by omega
  have hne : ks.key ≠ [] := ne_nil_of_countEnabled_pos hpos
  have hks := validateKeyset_of_loop_ok ks hne _ _ _
    (loop_ok_spec0 ks.primary_key_id ks.key h_valid h_atmost)
  have h0 : countEnabled ks.key ≠ 0 := by omega
  rcases h_pass with h1 | h1
  · rw [h1] at hks
    simpa [h0] using hks
  · simp [h0, h1] at hks
    exact hks

/-- Witness for C10 at a keyset with one primary record and two `ENABLED`
records sharing the non-primary id 2. -/
theorem C10_duplicate_nonprimary_ids_witness :
    ValidateKeyset ⟨1, [keySym1, keySym2, keySym2]⟩ = Status.OK :=
  C10_duplicate_nonprimary_ids ⟨1, [keySym1, keySym2, keySym2]⟩ 2 (by decide)
    (by decide) (Or.inl (by decide)) (by decide) (by decide)

end Tink
